import Mathlib

/-!
Shallow embedding of the `sonatel-api-js` client library (`src/sonatel-api.js`)
and verification of its specification.

Modelling conventions:
* Time is an integer millisecond timestamp (`Int`).  `new Date()` / `Date.now()`
  within one call of a method are modelled as a single instant `now`; a `Date`
  stored in `tokenExpiry` is modelled by its millisecond value.
* JavaScript `null`/`undefined` valued fields are modelled with `Option`;
  JavaScript truthiness of the modelled values is made explicit (`jsTruthy`,
  `Json.truthy`, ...).
* Network effects are modelled by passing the environment's answer for
  each `fetch` call as an explicit argument (`TokenFetch`, `ResourceFetch`);
  a component also reports how many network calls it performed, so that
  caching ("no network call") is observable.
* JSON response bodies of the token endpoint are modelled as the record of the
  two fields the code reads (`access_token` as an optional string,
  `expires_in` as an optional integer number); other JSON values for these
  fields are outside the model.  Resource-call bodies are carried as a small
  JSON value type that the dispatcher never inspects.
* `URLSearchParams` percent-encoding and `JSON.stringify` serialisation are
  abstracted: the query string is the plain `k=v&...` join, and the outgoing
  request body is carried as the JSON value itself.
* The code throws plain `Error` objects distinguished only by their message;
  the spec's error taxonomy (`AuthenticationError` vs `RequestError`) maps to
  the two distinct throw sites, which we keep apart as constructors of
  `ApiError`, each carrying the exact message string the code builds.
-/

/-- A small JSON value type for request/response bodies the dispatcher carries
but never inspects. -/
inductive Json where
  | null
  | bool (b : Bool)
  | num (n : Int)
  | str (s : String)
  | arr (elems : List Json)
  | obj (fields : List (String × Json))

/-- JavaScript truthiness of a (non-`undefined`) JSON value. -/
def Json.truthy : Json → Bool
  | .null => false
  | .bool b => b
  | .num n => n != 0
  | .str s => s != ""
  | .arr _ => true
  | .obj _ => true

/-- JavaScript truthiness of a possibly-`null`/`undefined` string value. -/
def jsTruthy : Option String → Bool
  | none => false
  | some s => s != ""

/-- JS `v || d` for an optional string (JS: `null`, `undefined` and `""` are falsy). -/
def jsOrStr (v : Option String) (d : String) : String :=
  match v with
  | some s => if s == "" then d else s
  | none => d

/-- JS `v || d` for an optional integer (JS: `null`, `undefined` and `0` are falsy). -/
def jsOrInt (v : Option Int) (d : Int) : Int :=
  match v with
  | some n => if n == 0 then d else n
  | none => d

/-- The check `response.ok`: the HTTP status is in the success range 200–299. -/
def isOk (status : Nat) : Bool := 200 ≤ status && status ≤ 299

/-- Whether `pat` is a leading segment of `s` (on character lists). -/
def listLeads : List Char → List Char → Bool
  | _, [] => true
  | [], _ :: _ => false
  | c :: cs, p :: ps => c == p && listLeads cs ps

/-- Whether `pat` occurs contiguously inside `s` (on character lists). -/
def listContainsSeg : List Char → List Char → Bool
  | [], pat => pat.isEmpty
  | c :: cs, pat => listLeads (c :: cs) pat || listContainsSeg cs pat

/-- JS `String.prototype.includes`: the pattern occurs as a contiguous
substring. -/
def strIncludes (s pat : String) : Bool := listContainsSeg s.toList pat.toList

/-- The mutable instance state of a `SonatelAPI` client object
(`src/sonatel-api.js`, constructor). -/
structure SonatelAPI where
  clientId : String
  clientSecret : String
  baseUrl : String
  timeout : Int
  debug : Bool
  /-- Field `this.token`: `none` models `null` (initial) or `undefined` (stored from
  a body with no `access_token` field). -/
  token : Option String
  /-- Field `this.tokenExpiry`: `none` models `null`; `some e` models a `Date` with
  millisecond value `e`. -/
  tokenExpiry : Option Int

/-- The `config` object passed to the constructor; absent properties are `none`. -/
structure Config where
  clientId : Option String
  clientSecret : Option String
  baseUrl : Option String
  timeout : Option Int
  debug : Option Bool

/-- The constructor of `SonatelAPI`: validates credentials synchronously (it
performs no network call — it is a pure function of the config) and fills in
defaults. -/
def SonatelAPI.create (config : Config) : Except String SonatelAPI :=
  if !jsTruthy config.clientId || !jsTruthy config.clientSecret then
    .error ("Client ID and Client Secret are required")
  else
    .ok { clientId := config.clientId.getD ("")
          clientSecret := config.clientSecret.getD ("")
          baseUrl := jsOrStr config.baseUrl ("https://api.orange-sonatel.com")
          timeout := jsOrInt config.timeout 10000
          debug := (config.debug.getD false)
          token := none
          tokenExpiry := none }

/-- The two distinct throw sites of the client, each with the exact message
string the code builds: `authError` is thrown by `_getToken`, `requestError`
by the `catch` block of `request`. -/
inductive ApiError where
  | authError (message : String)
  | requestError (message : String)

/-- Parse result of the token endpoint's JSON body, restricted to the two
fields `_getToken` reads.  `access_token` is `none` when the field is absent;
`expires_in` is modelled as an integer number of seconds when present. -/
structure TokenBody where
  access_token : Option String
  expires_in : Option Int

/-- The environment's answer to the token-endpoint `fetch`: either the promise
rejects (network failure / timeout), or a response arrives with the given
status, status text, and `response.json()` result (`.error msg` when the body
fails to parse as JSON). -/
inductive TokenFetch where
  | netError (msg : String)
  | response (status : Nat) (statusText : String) (body : Except String TokenBody)

/-- The check `this.token && this.tokenExpiry && new Date() < this.tokenExpiry`:
the cached-token freshness check at the top of `_getToken`. -/
def hasFreshToken (now : Int) (s : SonatelAPI) : Bool :=
  jsTruthy s.token &&
    (match s.tokenExpiry with
     | none => false
     | some e => decide (now < e))

/-- The expression `data.expires_in || 3600`: the expiry duration in seconds; JS `||` also
replaces a present but falsy (zero) value by the default. -/
def expiresInOf (b : TokenBody) : Int :=
  match b.expires_in with
  | some n => if n == 0 then 3600 else n
  | none => 3600

/-- Method `_getToken` (`src/sonatel-api.js`): returns the outcome (the returned
token value, or the thrown error), the updated instance state, and the number
of network calls performed (0 on a cache hit, 1 otherwise).  The returned
token is `Option String` because the code returns `this.token`, which is
`undefined` when the response body had no `access_token` field. -/
def SonatelAPI.getToken (now : Int) (s : SonatelAPI) (net : TokenFetch) :
    Except ApiError (Option String) × SonatelAPI × Nat :=
  if hasFreshToken now s then
    (.ok s.token, s, 0)
  else
    match net with
    | .netError msg =>
        (.error (.authError ("Failed to get authentication token: " ++ msg)), s, 1)
    | .response status statusText body =>
        if isOk status then
          match body with
          | .error msg =>
              (.error (.authError ("Failed to get authentication token: " ++ msg)), s, 1)
          | .ok b =>
              (.ok b.access_token,
               { s with token := b.access_token
                        tokenExpiry := some (now + expiresInOf b * 1000) },
               1)
        else
          (.error (.authError ("Failed to get authentication token: Authentication failed: "
              ++ toString status ++ " " ++ statusText)), s, 1)

/-- The `options` object of `request`; absent properties are `none`.
Header and parameter objects are modelled as association lists in property
order. -/
structure RequestOptions where
  method : Option String
  params : Option (List (String × String))
  data : Option Json
  headers : Option (List (String × String))

/-- A resource-endpoint HTTP response: status, status text, the
`content-type` header (`none` when absent), the raw text body, and the result
of `response.json()` (`.error msg` when the body fails to parse as JSON). -/
structure ResourceResponse where
  status : Nat
  statusText : String
  contentType : Option String
  bodyText : String
  bodyJson : Except String Json

/-- The environment's answer to the resource `fetch`: either the promise
rejects (network failure / timeout), or a response arrives. -/
inductive ResourceFetch where
  | netError (msg : String)
  | response (r : ResourceResponse)

/-- The decoded response data `request` resolves with: a JSON value when the
content type indicated JSON, the raw text body otherwise. -/
inductive RespData where
  | json (v : Json)
  | text (s : String)

/-- The resource request actually handed to `fetch`: the resolved URL, the
method, the merged header object, and the body (the JSON value that
`JSON.stringify` would serialise, `none` when no body is attached). -/
structure SentRequest where
  url : String
  method : String
  headers : List (String × String)
  body : Option Json

/-- Result of one `request` call: its outcome, the updated instance state,
the resource request that was dispatched (`none` when token acquisition
failed, so no resource call was made), and the number of token-endpoint
network calls. -/
structure RequestResult where
  outcome : Except ApiError RespData
  state : SonatelAPI
  sent : Option SentRequest
  tokenCalls : Nat

/-- Replace the value of key `k` in a JS-object association list, or append
the property when the key is absent (JS object update semantics). -/
def objInsert (m : List (String × String)) (k v : String) : List (String × String) :=
  if m.any (fun p => p.1 == k) then
    m.map (fun p => if p.1 == k then (k, v) else p)
  else
    m ++ [(k, v)]

/-- JS object spread `{...base, ...ext}`: later keys overwrite earlier ones,
new keys are appended in order. -/
def objSpread (base ext : List (String × String)) : List (String × String) :=
  ext.foldl (fun acc p => objInsert acc p.1 p.2) base

/-- First-match lookup in a JS-object association list (property access). -/
def objGet (m : List (String × String)) (k : String) : Option String :=
  match m.find? (fun p => p.1 == k) with
  | some p => some p.2
  | none => none

/-- The template literal for the Authorization value interpolates `undefined` as the string
"undefined". -/
def tokenDisplay : Option String → String
  | some s => s
  | none => "undefined"

/-- The check `contentType && contentType.includes('application/json')`. -/
def jsonContentType : Option String → Bool
  | none => false
  | some ct => strIncludes ct ("application/json")

/-- The `URLSearchParams` query-string join (percent-encoding abstracted). -/
def encodeQuery (params : List (String × String)) : String :=
  String.intercalate ("&") (params.map (fun p => p.1 ++ "=" ++ p.2))

/-- Method `request` (`src/sonatel-api.js`): obtains a token via `getToken` (which
runs before the `try` block, so its error propagates unwrapped), builds the
URL, merges the headers with the defaults, issues the resource call, decodes
the body by content type (before the status check, as in the source), and
fails on a non-success status. -/
def SonatelAPI.request (now : Int) (s : SonatelAPI) (endpoint : String)
    (options : RequestOptions) (tokenNet : TokenFetch) (resNet : ResourceFetch) :
    RequestResult :=
  let method := jsOrStr options.method ("GET")
  let params := options.params.getD []
  let dataVal : Option Json :=
    match options.data with
    | some j => if j.truthy then some j else none
    | none => none
  let callerHeaders := options.headers.getD []
  match SonatelAPI.getToken now s tokenNet with
  | (.error e, s₁, c) =>
      { outcome := .error e, state := s₁, sent := none, tokenCalls := c }
  | (.ok tok, s₁, c) =>
      let url := s₁.baseUrl ++
        (if endpoint.startsWith ("/") then endpoint else "/" ++ endpoint)
      let url := if params.isEmpty then url else url ++ "?" ++ encodeQuery params
      let hdrs := objSpread
        [("Authorization", "Bearer " ++ tokenDisplay tok),
         ("Content-Type", "application/json")] callerHeaders
      let body := if method != "GET" && dataVal.isSome then dataVal else none
      let sent : SentRequest :=
        { url := url, method := method, headers := hdrs, body := body }
      match resNet with
      | .netError msg =>
          { outcome := .error (.requestError ("API request failed: " ++ msg)),
            state := s₁, sent := some sent, tokenCalls := c }
      | .response r =>
          if jsonContentType r.contentType then
            match r.bodyJson with
            | .error msg =>
                { outcome := .error (.requestError ("API request failed: " ++ msg)),
                  state := s₁, sent := some sent, tokenCalls := c }
            | .ok j =>
                if isOk r.status then
                  { outcome := .ok (.json j), state := s₁, sent := some sent,
                    tokenCalls := c }
                else
                  { outcome := .error (.requestError
                      ("API request failed: Request failed: "
                        ++ toString r.status ++ " " ++ r.statusText)),
                    state := s₁, sent := some sent, tokenCalls := c }
          else
            if isOk r.status then
              { outcome := .ok (.text r.bodyText), state := s₁, sent := some sent,
                tokenCalls := c }
            else
              { outcome := .error (.requestError
                  ("API request failed: Request failed: "
                    ++ toString r.status ++ " " ++ r.statusText)),
                state := s₁, sent := some sent, tokenCalls := c }

/-- A token response whose `expires_in` field, if present, is nonnegative
(`true` also for failures, where no expiry is stored). -/
def nonnegExpiresIn : TokenFetch → Bool
  | .response _ _ (.ok b) =>
      match b.expires_in with
      | some n => decide (0 ≤ n)
      | none => true
  | _ => true

/-- A freshly constructed client instance (no cached token), used as a
concrete input for witnesses and counterexamples. -/
def sW : SonatelAPI :=
  { clientId := "id", clientSecret := "secret",
    baseUrl := "https://api.orange-sonatel.com", timeout := 10000, debug := false,
    token := none, tokenExpiry := none }

/-- A client instance holding a non-empty cached token that expires at
millisecond 1000000. -/
def sTok : SonatelAPI := { sW with token := some ("tok"), tokenExpiry := some 1000000 }

/-- Empty request options (all properties absent). -/
def optsEmpty : RequestOptions :=
  { method := none, params := none, data := none, headers := none }

/-- A rejected token-endpoint fetch. -/
def netFail : TokenFetch := .netError ("boom")

/-- A successful token response with a non-empty token and `expires_in` 60. -/
def netGood : TokenFetch :=
  .response 200 ("OK") (.ok { access_token := some ("tok"), expires_in := some 60 })

/-- A successful token response whose `access_token` is the empty string. -/
def netEmptyTok : TokenFetch :=
  .response 200 ("OK") (.ok { access_token := some (""), expires_in := some 60 })

/-- A successful token response whose body has no `access_token` field. -/
def netNoTok : TokenFetch :=
  .response 200 ("OK") (.ok { access_token := none, expires_in := some 60 })

/-- A successful token response with a negative `expires_in`. -/
def netNegExp : TokenFetch :=
  .response 200 ("OK") (.ok { access_token := some ("tok"), expires_in := some (-5) })

/-- A successful token response with `expires_in` equal to zero. -/
def netZeroExp : TokenFetch :=
  .response 200 ("OK") (.ok { access_token := some ("tok"), expires_in := some 0 })

/-- A 401 resource response declaring a JSON content type whose body fails to
parse as JSON. -/
def rr401bad : ResourceResponse :=
  { status := 401, statusText := "Unauthorized",
    contentType := some ("application/json"),
    bodyText := "\x7b", bodyJson := .error ("Unexpected end of JSON input") }

/-- A 401 resource response with a JSON content type and a decodable body. -/
def rr401json : ResourceResponse :=
  { status := 401, statusText := "Unauthorized",
    contentType := some ("application/json"),
    bodyText := "3", bodyJson := .ok (.num 3) }

/-- A 200 resource response with a plain-text content type (its `bodyJson`
would fail, but the code never attempts it). -/
def rr200text : ResourceResponse :=
  { status := 200, statusText := "OK",
    contentType := some ("text/plain"),
    bodyText := "hello", bodyJson := .error ("Unexpected token h") }

/-- A 200 resource response with a JSON content type and a decodable body. -/
def rr200json : ResourceResponse :=
  { status := 200, statusText := "OK",
    contentType := some ("application/json; charset=utf-8"),
    bodyText := "3", bodyJson := .ok (.num 3) }

/-- Request options supplying one header that collides with a default. -/
def optsHdr : RequestOptions :=
  { method := none, params := none, data := none,
    headers := some [("Content-Type", "text/xml")] }

/-- A config with an empty `clientId` and an absent `clientSecret`. -/
def cfgBad : Config :=
  { clientId := some (""), clientSecret := none, baseUrl := none,
    timeout := none, debug := none }

/-- The freshness check succeeds exactly when a truthy token and a strictly
future expiry are both present. -/
theorem hasFreshToken_true_iff (now : Int) (s : SonatelAPI) :
    hasFreshToken now s = true ↔
      (∃ v, s.token = some v ∧ v ≠ "") ∧ (∃ e, s.tokenExpiry = some e ∧ now < e) := by
  unfold hasFreshToken jsTruthy
  cases htok : s.token <;> cases hexp : s.tokenExpiry <;> simp [bne_iff_ne]

/-- On a cache hit, `_getToken` returns the stored token, leaves the state
unchanged and makes no network call. -/
theorem getToken_cache_hit (now : Int) (s : SonatelAPI) (net : TokenFetch)
    (h : hasFreshToken now s = true) :
    SonatelAPI.getToken now s net = (.ok s.token, s, 0) := by
  simp [SonatelAPI.getToken, h]

/-- On a cache miss, `_getToken` makes exactly one network call. -/
theorem getToken_miss_calls (now : Int) (s : SonatelAPI) (net : TokenFetch)
    (h : hasFreshToken now s = false) :
    (SonatelAPI.getToken now s net).2.2 = 1 := by
  unfold SonatelAPI.getToken
  rw [h]
  cases net with
  | netError msg => simp
  | response status statusText body =>
    simp only [Bool.false_eq_true, if_false]
    split
    · cases body <;> simp
    · simp

/-- `_getToken` performs at most one network call (no internal retry). -/
theorem getToken_calls_le_one (now : Int) (s : SonatelAPI) (net : TokenFetch) :
    (SonatelAPI.getToken now s net).2.2 ≤ 1 := by
  cases h : hasFreshToken now s
  · rw [getToken_miss_calls now s net h]
  · rw [getToken_cache_hit now s net h]
    exact Nat.zero_le 1

/-- A failing `_getToken` leaves the instance state unchanged, made exactly
one network call, and threw from the `_getToken` throw site. -/
theorem getToken_error_state (now : Int) (s : SonatelAPI) (net : TokenFetch)
    (e : ApiError) (s₁ : SonatelAPI) (c : Nat)
    (h : SonatelAPI.getToken now s net = (.error e, s₁, c)) :
    s₁ = s ∧ c = 1 ∧ ∃ m, e = .authError m := by
  unfold SonatelAPI.getToken at h
  split at h
  · simp at h
  · cases net with
    | netError msg =>
      simp only [Prod.mk.injEq, Except.error.injEq] at h
      exact ⟨h.2.1.symm, h.2.2.symm, _, h.1.symm⟩
    | response status statusText body =>
      simp only at h
      split at h
      · cases body with
        | error msg =>
          simp only [Prod.mk.injEq, Except.error.injEq] at h
          exact ⟨h.2.1.symm, h.2.2.symm, _, h.1.symm⟩
        | ok b => simp at h
      · simp only [Prod.mk.injEq, Except.error.injEq] at h
        exact ⟨h.2.1.symm, h.2.2.symm, _, h.1.symm⟩

/-- A success of `_getToken` that made a network call came from a response
with a success status and a parseable body; the stored and returned token and
expiry are determined by that body. -/
theorem getToken_fetch_success (now : Int) (s : SonatelAPI) (net : TokenFetch)
    (tok : Option String) (s₁ : SonatelAPI)
    (h : SonatelAPI.getToken now s net = (.ok tok, s₁, 1)) :
    ∃ status statusText b, net = .response status statusText (.ok b) ∧
      isOk status = true ∧ tok = b.access_token ∧
      s₁ = { s with token := b.access_token
                    tokenExpiry := some (now + expiresInOf b * 1000) } := by
  unfold SonatelAPI.getToken at h
  split at h
  · simp at h
  · cases net with
    | netError msg => simp at h
    | response status statusText body =>
      simp only at h
      split at h
      case isTrue hok =>
        cases body with
        | error msg => simp at h
        | ok b =>
          simp only [Prod.mk.injEq, Except.ok.injEq] at h
          exact ⟨status, statusText, b, rfl, hok, h.1.symm, h.2.1.symm⟩
      case isFalse hok => simp at h

/-- A success of `_getToken` with no network call is a cache hit: the state is
unchanged and the stored token is returned. -/
theorem getToken_zero_calls (now : Int) (s : SonatelAPI) (net : TokenFetch)
    (tok : Option String) (s₁ : SonatelAPI)
    (h : SonatelAPI.getToken now s net = (.ok tok, s₁, 0)) :
    hasFreshToken now s = true ∧ tok = s.token ∧ s₁ = s := by
  unfold SonatelAPI.getToken at h
  split at h
  case isTrue hf =>
    simp only [Prod.mk.injEq, Except.ok.injEq] at h
    exact ⟨hf, h.1.symm, h.2.1.symm⟩
  case isFalse hf =>
    cases net with
    | netError msg => simp at h
    | response status statusText body =>
      simp only at h
      split at h
      · cases body <;> simp at h
      · simp at h

/-- A failing `_getToken` on a rejected fetch wraps the network error's
message. -/
theorem getToken_netError_msg (now : Int) (s : SonatelAPI) (msg : String)
    (e : ApiError) (s₁ : SonatelAPI) (c : Nat)
    (h : SonatelAPI.getToken now s (.netError msg) = (.error e, s₁, c)) :
    e = .authError ("Failed to get authentication token: " ++ msg) := by
  unfold SonatelAPI.getToken at h
  split at h
  · simp at h
  · simp only [Prod.mk.injEq, Except.error.injEq] at h
    exact h.1.symm

/-- A failing `_getToken` on a non-success status carries the upstream status
code and status text in its message. -/
theorem getToken_badstatus_msg (now : Int) (s : SonatelAPI) (status : Nat)
    (statusText : String) (body : Except String TokenBody)
    (e : ApiError) (s₁ : SonatelAPI) (c : Nat)
    (h : SonatelAPI.getToken now s (.response status statusText body) = (.error e, s₁, c))
    (hst : isOk status = false) :
    e = .authError ("Failed to get authentication token: Authentication failed: "
        ++ toString status ++ " " ++ statusText) := by
  unfold SonatelAPI.getToken at h
  split at h
  · simp at h
  · simp only [hst, Bool.false_eq_true, if_false, Prod.mk.injEq, Except.error.injEq] at h
    exact h.1.symm

/-- Replacing the value at key `k` makes `k` map to the new value. -/
theorem objGet_map_replace (m : List (String × String)) (k v : String)
    (hany : m.any (fun p => p.1 == k) = true) :
    objGet (m.map (fun p => if p.1 == k then (k, v) else p)) k = some v := by
  induction m with
  | nil => simp at hany
  | cons p rest ih =>
    by_cases hp : (p.1 == k) = true
    · have hp1 : p.1 = k := eq_of_beq hp
      simp [objGet, hp1]
    · have hrest : rest.any (fun p => p.1 == k) = true := by
        simp only [List.any_cons, hp, Bool.false_or] at hany
        exact hany
      simp only [List.map_cons, if_neg hp, objGet] at ih ⊢
      rw [List.find?_cons_of_neg _ (by simp [hp])]
      exact ih hrest

/-- Replacing the value at key `k` does not change lookups at other keys. -/
theorem objGet_map_replace_other (m : List (String × String)) (k v k' : String)
    (hk : (k' == k) = false) :
    objGet (m.map (fun p => if p.1 == k then (k, v) else p)) k' = objGet m k' := by
  induction m with
  | nil => simp [objGet]
  | cons p rest ih =>
    by_cases hp : (p.1 == k) = true
    · have hp1 : p.1 = k := eq_of_beq hp
      have hL : ((k, v).1 == k') = false := by
        simpa using fun h => by simp [h] at hk
      have hR : (p.1 == k') = false := by
        rw [hp1]
        simpa using fun h => by simp [h] at hk
      simp only [List.map_cons, if_pos hp, objGet] at ih ⊢
      rw [List.find?_cons_of_neg _ (by simp [hL]), List.find?_cons_of_neg _ (by simp [hR])]
      exact ih
    · simp only [List.map_cons, if_neg hp, objGet] at ih ⊢
      by_cases hq : (p.1 == k') = true
      · rw [List.find?_cons_of_pos _ (by simp [hq]), List.find?_cons_of_pos _ (by simp [hq])]
      · rw [List.find?_cons_of_neg _ (by simp [hq]), List.find?_cons_of_neg _ (by simp [hq])]
        exact ih

/-- Appending a property at a key absent from the object makes the key map to
the appended value. -/
theorem objGet_append_self (m : List (String × String)) (k v : String)
    (hany : m.any (fun p => p.1 == k) = false) :
    objGet (m ++ [(k, v)]) k = some v := by
  induction m with
  | nil => simp [objGet]
  | cons p rest ih =>
    simp only [List.any_cons, Bool.or_eq_false_iff] at hany
    simp only [List.cons_append, objGet] at ih ⊢
    rw [List.find?_cons_of_neg _ (by simp [hany.1])]
    exact ih hany.2

/-- Appending a property does not change lookups at other keys. -/
theorem objGet_append_other (m : List (String × String)) (k v k' : String)
    (hk : (k' == k) = false) :
    objGet (m ++ [(k, v)]) k' = objGet m k' := by
  induction m with
  | nil =>
    have hL : ((k, v).1 == k') = false := by
      simpa using fun h => by simp [h] at hk
    simp [objGet, List.find?, hL]
  | cons p rest ih =>
    simp only [List.cons_append, objGet] at ih ⊢
    by_cases hq : (p.1 == k') = true
    · rw [List.find?_cons_of_pos _ (by simp [hq]), List.find?_cons_of_pos _ (by simp [hq])]
    · rw [List.find?_cons_of_neg _ (by simp [hq]), List.find?_cons_of_neg _ (by simp [hq])]
      exact ih

/-- JS object update: the updated key maps to the new value. -/
theorem objGet_objInsert_self (m : List (String × String)) (k v : String) :
    objGet (objInsert m k v) k = some v := by
  unfold objInsert
  split
  case isTrue hany => exact objGet_map_replace m k v hany
  case isFalse hany =>
    refine objGet_append_self m k v ?_
    revert hany
    cases m.any fun p => p.1 == k <;> simp

/-- JS object update: other keys are unchanged. -/
theorem objGet_objInsert_other (m : List (String × String)) (k v k' : String)
    (hk : (k' == k) = false) :
    objGet (objInsert m k v) k' = objGet m k' := by
  unfold objInsert
  split
  case isTrue hany => exact objGet_map_replace_other m k v k' hk
  case isFalse hany => exact objGet_append_other m k v k' hk

/-- JS object spread `{...base, ...ext}` — when the keys of `ext` are distinct
(as they are for an object literal), a lookup returns `ext`'s value when `ext`
has the key and `base`'s value otherwise. -/
theorem objGet_objSpread (base ext : List (String × String)) (k : String)
    (hext : (ext.map Prod.fst).Nodup) :
    objGet (objSpread base ext) k =
      match objGet ext k with
      | some v => some v
      | none => objGet base k := by
  induction ext generalizing base with
  | nil => simp [objSpread, objGet]
  | cons p rest ih =>
    obtain ⟨k₀, v₀⟩ := p
    simp only [List.map_cons, List.nodup_cons] at hext
    have hstep : objSpread base ((k₀, v₀) :: rest) = objSpread (objInsert base k₀ v₀) rest := rfl
    rw [hstep, ih (objInsert base k₀ v₀) hext.2]
    by_cases hk : (k₀ == k) = true
    · have hkk : k₀ = k := eq_of_beq hk
      subst hkk
      have hrest : objGet rest k₀ = none := by
        unfold objGet
        rw [List.find?_eq_none.mpr]
        intro x hx
        have : x.1 ∈ rest.map Prod.fst := List.mem_map_of_mem Prod.fst hx
        simp only [Bool.not_eq_true]
        cases hb : (x.1 == k₀)
        · rfl
        · exact absurd (eq_of_beq hb ▸ this) hext.1
      have hhead : objGet ((k₀, v₀) :: rest) k₀ = some v₀ := by
        simp [objGet]
      rw [hrest, hhead]
      simp only
      exact objGet_objInsert_self base k₀ v₀
    · have hhead : objGet ((k₀, v₀) :: rest) k = objGet rest k := by
        unfold objGet
        rw [List.find?_cons_of_neg _ (by simp; intro h; simp [h] at hk)]
      have hk2 : (k == k₀) = false := by
        cases hb : (k == k₀)
        · rfl
        · exact absurd (by simp [eq_of_beq hb]) hk
      rw [hhead, objGet_objInsert_other base k₀ v₀ k hk2]

/-- C7: for every configuration in which `clientId` or `clientSecret` is
empty or absent (JS-falsy), client construction fails with the configuration
error; the constructor is a pure function of the config, so the failure is
synchronous and no network call is involved. -/
theorem C7_construction_requires_credentials (config : Config)
    (h : jsTruthy config.clientId = false ∨ jsTruthy config.clientSecret = false) :
    SonatelAPI.create config = .error ("Client ID and Client Secret are required") := by
  unfold SonatelAPI.create
  rcases h with h | h <;> simp [h]

theorem C7_witness :
    SonatelAPI.create cfgBad = .error ("Client ID and Client Secret are required") :=
  C7_construction_requires_credentials cfgBad (Or.inl rfl)

/-- C6: a failed token acquisition (network failure, non-success status, or
unparseable response) leaves the instance state — in particular `token` and
`tokenExpiry` — exactly as it was before the call. -/
theorem C6_failed_acquisition_preserves_cache (now : Int) (s : SonatelAPI)
    (net : TokenFetch) (e : ApiError) (s₁ : SonatelAPI) (c : Nat)
    (h : SonatelAPI.getToken now s net = (.error e, s₁, c)) :
    s₁ = s ∧ s₁.token = s.token ∧ s₁.tokenExpiry = s.tokenExpiry := by
  obtain ⟨h1, -, -⟩ := getToken_error_state now s net e s₁ c h
  exact ⟨h1, h1 ▸ rfl, h1 ▸ rfl⟩

theorem C6_witness :
    (SonatelAPI.getToken 0 sW netFail).2.1 = sW :=
  (C6_failed_acquisition_preserves_cache 0 sW netFail
    (.authError ("Failed to get authentication token: " ++ "boom"))
    ((SonatelAPI.getToken 0 sW netFail).2.1) 1 rfl).1

/-- C10: a success-status token response whose parsed body lacks
`access_token` (or holds the falsy empty string) raises no error: `_getToken`
stores that absent value as the cached token together with a fresh expiry,
and returns the absent value to the caller. -/
theorem C10_falsy_access_token_stored (now : Int) (s : SonatelAPI)
    (status : Nat) (statusText : String) (b : TokenBody)
    (hmiss : hasFreshToken now s = false)
    (hok : isOk status = true)
    (_hfalsy : b.access_token = none ∨ b.access_token = some ("")) :
    SonatelAPI.getToken now s (.response status statusText (.ok b)) =
      (.ok b.access_token,
       { s with token := b.access_token
                tokenExpiry := some (now + expiresInOf b * 1000) }, 1) := by
  unfold SonatelAPI.getToken
  rw [hmiss]
  simp [hok]

theorem C10_witness :
    SonatelAPI.getToken 0 sW netNoTok =
      (.ok none, { sW with token := none, tokenExpiry := some 60000 }, 1) :=
  C10_falsy_access_token_stored 0 sW 200 ("OK")
    { access_token := none, expires_in := some 60 } rfl rfl (Or.inl rfl)

/-- C1 fails on the code: the cache-hit guard tests JS truthiness of the
stored token, so a successful token response whose `access_token` is the
empty string leaves the cache holding a token (the empty string) whose
`expiresAt` (60000) is strictly after the current time (1000), yet the second
of two sequential `getToken` calls inside that expiry window does not return
the cached token and performs a network call again: the two calls make two
network calls to the token endpoint, not one. -/
theorem C1_counterexample :
    (SonatelAPI.getToken 0 sW netEmptyTok).2.1.token = some ("") ∧
    (SonatelAPI.getToken 0 sW netEmptyTok).2.1.tokenExpiry = some 60000 ∧
    (SonatelAPI.getToken 0 sW netEmptyTok).2.2 = 1 ∧
    (SonatelAPI.getToken 1000 (SonatelAPI.getToken 0 sW netEmptyTok).2.1 netEmptyTok).2.2 = 1 :=
  ⟨rfl, rfl, rfl, rfl⟩

/-- C1 amended: the cache-hit guard requires a truthy (non-empty) cached
token.  For every client state holding a non-empty cached token whose
`expiresAt` is strictly after the current time, `getToken` returns that token
unchanged and performs no network call; when no truthy unexpired cached token
exists, `getToken` performs the token-acquisition exchange (one network
call); and two sequential `getToken` calls within the same expiry window
result in exactly one network call provided the first acquisition stored a
non-empty `access_token`. -/
theorem C1_amended_caching :
    (∀ (now : Int) (s : SonatelAPI) (net : TokenFetch) (v : String) (e : Int),
      s.token = some v → v ≠ "" → s.tokenExpiry = some e → now < e →
      SonatelAPI.getToken now s net = (.ok (some v), s, 0)) ∧
    (∀ (now : Int) (s : SonatelAPI) (net : TokenFetch),
      hasFreshToken now s = false → (SonatelAPI.getToken now s net).2.2 = 1) ∧
    (∀ (t₀ t₁ : Int) (s₀ s₁ : SonatelAPI) (net net₂ : TokenFetch) (v : String) (e : Int),
      SonatelAPI.getToken t₀ s₀ net = (.ok (some v), s₁, 1) → v ≠ "" →
      s₁.tokenExpiry = some e → t₁ < e →
      SonatelAPI.getToken t₁ s₁ net₂ = (.ok (some v), s₁, 0)) := by
  have hhit : ∀ (now : Int) (s : SonatelAPI) (net : TokenFetch) (v : String) (e : Int),
      s.token = some v → v ≠ "" → s.tokenExpiry = some e → now < e →
      SonatelAPI.getToken now s net = (.ok (some v), s, 0) := by
    intro now s net v e hv hne he hlt
    have hf : hasFreshToken now s = true :=
      (hasFreshToken_true_iff now s).mpr ⟨⟨v, hv, hne⟩, ⟨e, he, hlt⟩⟩
    rw [getToken_cache_hit now s net hf, hv]
  refine ⟨hhit, getToken_miss_calls, ?_⟩
  intro t₀ t₁ s₀ s₁ net net₂ v e h hne he hlt
  obtain ⟨st, stx, b, -, -, htok, hs⟩ := getToken_fetch_success t₀ s₀ net (some v) s₁ h
  have hv : s₁.token = some v := by rw [hs]; exact htok.symm
  exact hhit t₁ s₁ net₂ v e hv hne he hlt

theorem C1_amended_witness :
    SonatelAPI.getToken 500 sTok netFail = (.ok (some ("tok")), sTok, 0) ∧
    (SonatelAPI.getToken 0 sW netGood).2.2 = 1 ∧
    SonatelAPI.getToken 1000 (SonatelAPI.getToken 0 sW netGood).2.1 netFail =
      (.ok (some ("tok")), (SonatelAPI.getToken 0 sW netGood).2.1, 0) :=
  ⟨C1_amended_caching.1 500 sTok netFail ("tok") 1000000 rfl (by decide) rfl (by decide),
   C1_amended_caching.2.1 0 sW netGood rfl,
   C1_amended_caching.2.2 0 1000 sW ((SonatelAPI.getToken 0 sW netGood).2.1) netGood netFail
     ("tok") 60000 rfl (by decide) rfl (by decide)⟩

/-- C2 fails on the code: nothing constrains a server-supplied negative
`expires_in` (here -5), which is truthy in JS, so `_getToken` stores
`expiresAt = now + (-5)·1000 = -5000` and returns the freshly fetched token
even though that `expiresAt` is at or before the current time 0 — an expired
token is returned rather than treated as absent. -/
theorem C2_counterexample :
    (SonatelAPI.getToken 0 sW netNegExp).1 = .ok (some ("tok")) ∧
    (SonatelAPI.getToken 0 sW netNegExp).2.1.tokenExpiry = some (-5000) ∧
    ((-5000 : Int) ≤ 0) :=
  ⟨rfl, rfl, by decide⟩

/-- C2 amended: provided every server-supplied `expires_in` is nonnegative
(zero is falsy in JS and is mapped to the 3600-second default), whenever
`getToken` succeeds, the cached token state afterwards carries an `expiresAt`
strictly after the current time; in particular a cache hit (no network call)
leaves the state unchanged, returns the stored token, and implies the stored
expiry was strictly in the future — a cached token whose `expiresAt` is at or
before now is treated as absent and triggers a fresh fetch instead. -/
theorem C2_amended_freshness (now : Int) (s : SonatelAPI) (net : TokenFetch)
    (tok : Option String) (s₁ : SonatelAPI) (c : Nat)
    (hnn : nonnegExpiresIn net = true)
    (h : SonatelAPI.getToken now s net = (.ok tok, s₁, c)) :
    (∃ e, s₁.tokenExpiry = some e ∧ now < e) ∧
    (c = 0 → s₁ = s ∧ tok = s.token ∧ ∃ e, s.tokenExpiry = some e ∧ now < e) := by
  cases hf : hasFreshToken now s with
  | true =>
    rw [getToken_cache_hit now s net hf] at h
    simp only [Prod.mk.injEq, Except.ok.injEq] at h
    obtain ⟨h1, h2, h3⟩ := h
    obtain ⟨-, e, he, hlt⟩ := (hasFreshToken_true_iff now s).mp hf
    exact ⟨⟨e, h2 ▸ he, hlt⟩, fun _ => ⟨h2.symm, h1.symm, e, he, hlt⟩⟩
  | false =>
    have hc1 : c = 1 := by
      have := getToken_miss_calls now s net hf
      rw [h] at this
      exact this
    obtain ⟨st, stx, b, hnet, hok, htokeq, hs⟩ :=
      getToken_fetch_success now s net tok s₁ (hc1 ▸ h)
    have hdpos : 0 < expiresInOf b := by
      rw [hnet] at hnn
      have hnn2 : (match b.expires_in with
          | some n => decide ((0 : Int) ≤ n)
          | none => true) = true := hnn
      unfold expiresInOf
      cases hbe : b.expires_in with
      | none => norm_num
      | some n =>
        rw [hbe] at hnn2
        have hn : (0 : Int) ≤ n := of_decide_eq_true hnn2
        show (0 : Int) < if (n == 0) = true then 3600 else n
        by_cases hz : (n == 0) = true
        · rw [if_pos hz]; norm_num
        · rw [if_neg hz]
          have hnz : n ≠ 0 := by
            intro hh
            rw [hh] at hz
            simp at hz
          omega
    refine ⟨⟨now + expiresInOf b * 1000, ?_, ?_⟩, fun hc0 => ?_⟩
    · rw [hs]
    · have h1000 : (1000 : Int) ≤ expiresInOf b * 1000 := by omega
      omega
    · rw [hc0] at hc1
      exact absurd hc1 (by decide)

theorem C2_amended_witness :
    ∃ e, (SonatelAPI.getToken 0 sW netGood).2.1.tokenExpiry = some e ∧ (0 : Int) < e :=
  (C2_amended_freshness 0 sW netGood (some ("tok"))
    ((SonatelAPI.getToken 0 sW netGood).2.1) 1 rfl rfl).1

/-- C5 fails on the code: a server-supplied `expires_in` of 0 seconds is
falsy in JS, so `data.expires_in || 3600` replaces it by the 3600-second
default: the token fetched at time 0 is stored with `expiresAt = 3600000`,
not `now + 0·1000 = 0` as the claim's formula (duration = the server-supplied
`expires_in`) requires. -/
theorem C5_counterexample :
    (SonatelAPI.getToken 0 sW netZeroExp).1 = .ok (some ("tok")) ∧
    (SonatelAPI.getToken 0 sW netZeroExp).2.1.tokenExpiry = some 3600000 ∧
    some ((3600000 : Int)) ≠ some ((0 : Int) + 0 * 1000) :=
  ⟨rfl, rfl, by decide⟩

/-- C5 amended: for every successful token acquisition the stored expiry is
`expiresAt = now + duration·1000` milliseconds, where `duration` is the
server-supplied `expires_in` in seconds when that field is present and
nonzero, and 3600 seconds when the server omits it or supplies the falsy
value zero. -/
theorem C5_amended_expiry_formula (now : Int) (s : SonatelAPI)
    (status : Nat) (statusText : String) (b : TokenBody)
    (tok : Option String) (s₁ : SonatelAPI)
    (h : SonatelAPI.getToken now s (.response status statusText (.ok b)) = (.ok tok, s₁, 1)) :
    s₁.tokenExpiry = some (now +
      (match b.expires_in with
       | some n => if n = 0 then (3600 : Int) else n
       | none => 3600) * 1000) := by
  obtain ⟨st, stx, b', hnet, -, -, hs⟩ :=
    getToken_fetch_success now s (.response status statusText (.ok b)) tok s₁ h
  injection hnet with h1 h2 h3
  injection h3 with h4
  subst h4
  rw [hs]
  simp only
  unfold expiresInOf
  cases b.expires_in with
  | none => rfl
  | some n =>
    by_cases hz : n = 0
    · simp [hz]
    · simp [hz]

theorem C5_amended_witness :
    (SonatelAPI.getToken 0 sW netGood).2.1.tokenExpiry = some ((0 : Int) + 60 * 1000) :=
  C5_amended_expiry_formula 0 sW 200 ("OK")
    { access_token := some ("tok"), expires_in := some 60 } (some ("tok"))
    ((SonatelAPI.getToken 0 sW netGood).2.1) rfl

/-- C4: when token acquisition fails — the authentication endpoint answered
with a non-success status, the network call failed, or the response could not
be parsed — the failure is the authentication error from `_getToken`'s throw
site carrying the upstream status/message, exactly one network call was made
(no internal retry), and `request` propagates that very error with no
resource call dispatched — it is not masked as the generic request failure. -/
theorem C4_auth_error_propagated (now : Int) (s : SonatelAPI) (endpoint : String)
    (opts : RequestOptions) (tokenNet : TokenFetch) (resNet : ResourceFetch)
    (e : ApiError) (s₁ : SonatelAPI) (c : Nat)
    (h : SonatelAPI.getToken now s tokenNet = (.error e, s₁, c)) :
    (∃ m, e = .authError m) ∧ c = 1 ∧
    SonatelAPI.request now s endpoint opts tokenNet resNet =
      { outcome := .error e, state := s₁, sent := none, tokenCalls := c } ∧
    (∀ msg, tokenNet = .netError msg →
      e = .authError ("Failed to get authentication token: " ++ msg)) ∧
    (∀ status statusText body, tokenNet = .response status statusText body →
      isOk status = false →
      e = .authError ("Failed to get authentication token: Authentication failed: "
          ++ toString status ++ " " ++ statusText)) := by
  obtain ⟨-, hc, hm⟩ := getToken_error_state now s tokenNet e s₁ c h
  refine ⟨hm, hc, ?_, ?_, ?_⟩
  · unfold SonatelAPI.request
    rw [h]
  · intro msg hnet
    subst hnet
    exact getToken_netError_msg now s msg e s₁ c h
  · intro status statusText body hnet hst
    subst hnet
    exact getToken_badstatus_msg now s status statusText body e s₁ c h hst

theorem C4_witness :
    SonatelAPI.request 0 sW ("/x") optsEmpty netFail (.response rr200text) =
      { outcome := .error (.authError ("Failed to get authentication token: " ++ "boom")),
        state := sW, sent := none, tokenCalls := 1 } :=
  (C4_auth_error_propagated 0 sW ("/x") optsEmpty netFail (.response rr200text)
    (.authError ("Failed to get authentication token: " ++ "boom")) sW 1 rfl).2.2.1

/-- C3 fails on the code: the body is decoded before the status check, so a
401 response that declares a JSON content type but whose body fails to decode
makes `request` throw the decode error: the operation fails, but the failure
message carries neither the status code 401 nor the status text
"Unauthorized", contradicting "fails with a RequestError that includes the
status code and status text" for this non-success response. -/
theorem C3_counterexample :
    (SonatelAPI.request 500 sTok ("/x") optsEmpty netFail (.response rr401bad)).outcome =
      .error (.requestError ("API request failed: " ++ "Unexpected end of JSON input")) ∧
    strIncludes ("API request failed: " ++ "Unexpected end of JSON input") ("401") = false ∧
    strIncludes ("API request failed: " ++ "Unexpected end of JSON input") ("Unauthorized") = false ∧
    isOk rr401bad.status = false :=
  ⟨rfl, by decide, by decide, rfl⟩

/-- C3 amended: for every `request` call whose resource response has a status
outside the success range, the operation fails and the decoded body is never
returned as a success value; whenever decoding did not itself throw (the
content type does not indicate JSON, or the JSON body decodes successfully),
the failure is the request error whose message carries the status code and
the status text; when a JSON-declared body fails to decode, the failure
carries the decode error instead. -/
theorem C3_amended_status_failure (now : Int) (s : SonatelAPI) (endpoint : String)
    (opts : RequestOptions) (tokenNet : TokenFetch) (r : ResourceResponse)
    (tok : Option String) (s₁ : SonatelAPI) (c : Nat)
    (htok : SonatelAPI.getToken now s tokenNet = (.ok tok, s₁, c))
    (hst : isOk r.status = false) :
    (∃ m, (SonatelAPI.request now s endpoint opts tokenNet (.response r)).outcome =
        .error (.requestError m)) ∧
    (∀ v, (SonatelAPI.request now s endpoint opts tokenNet (.response r)).outcome ≠ .ok v) ∧
    ((jsonContentType r.contentType = false ∨ ∃ j, r.bodyJson = .ok j) →
      (SonatelAPI.request now s endpoint opts tokenNet (.response r)).outcome =
        .error (.requestError ("API request failed: Request failed: "
          ++ toString r.status ++ " " ++ r.statusText))) := by
  have hnot : ¬(isOk r.status = true) := by
    rw [hst]
    exact Bool.false_ne_true
  unfold SonatelAPI.request
  rw [htok]
  simp only
  by_cases hct : jsonContentType r.contentType = true
  · rw [if_pos hct]
    cases hbj : r.bodyJson with
    | error m =>
      refine ⟨⟨"API request failed: " ++ m, rfl⟩, ?_, ?_⟩
      · intro v hv
        exact Except.noConfusion hv
      · intro hdec
        rcases hdec with hdec | ⟨j, hj⟩
        · rw [hct] at hdec
          exact absurd hdec (by simp)
        · exact Except.noConfusion hj
    | ok j =>
      dsimp only
      rw [if_neg hnot]
      refine ⟨⟨_, rfl⟩, ?_, fun _ => rfl⟩
      intro v hv
      exact Except.noConfusion hv
  · rw [if_neg hct, if_neg hnot]
    refine ⟨⟨_, rfl⟩, ?_, fun _ => rfl⟩
    intro v hv
    exact Except.noConfusion hv

theorem C3_amended_witness :
    (SonatelAPI.request 500 sTok ("/x") optsEmpty netFail (.response rr401json)).outcome =
      .error (.requestError ("API request failed: Request failed: "
        ++ toString rr401json.status ++ " " ++ rr401json.statusText)) :=
  (C3_amended_status_failure 500 sTok ("/x") optsEmpty netFail rr401json
    (some ("tok")) sTok 0 rfl rfl).2.2 (Or.inr ⟨.num 3, rfl⟩)

/-- C9: on a response with a success status, `request` resolves with the
JSON-decoded body when the response's content type indicates JSON, and
otherwise resolves with the raw text body unmodified — no decode of the text
body is attempted, so no decode error can be thrown on that path. -/
theorem C9_content_negotiation (now : Int) (s : SonatelAPI) (endpoint : String)
    (opts : RequestOptions) (tokenNet : TokenFetch) (r : ResourceResponse)
    (tok : Option String) (s₁ : SonatelAPI) (c : Nat)
    (htok : SonatelAPI.getToken now s tokenNet = (.ok tok, s₁, c))
    (hok : isOk r.status = true) :
    (∀ j, r.bodyJson = .ok j → jsonContentType r.contentType = true →
      (SonatelAPI.request now s endpoint opts tokenNet (.response r)).outcome =
        .ok (.json j)) ∧
    (jsonContentType r.contentType = false →
      (SonatelAPI.request now s endpoint opts tokenNet (.response r)).outcome =
        .ok (.text r.bodyText)) := by
  constructor
  · intro j hbj hct
    unfold SonatelAPI.request
    rw [htok]
    simp only
    rw [if_pos hct, hbj]
    dsimp only
    rw [if_pos hok]
  · intro hct
    unfold SonatelAPI.request
    rw [htok]
    simp only
    rw [if_neg (by rw [hct]; exact Bool.false_ne_true), if_pos hok]

theorem C9_witness :
    (SonatelAPI.request 500 sTok ("/x") optsEmpty netFail (.response rr200json)).outcome =
      .ok (.json (.num 3)) ∧
    (SonatelAPI.request 500 sTok ("/x") optsEmpty netFail (.response rr200text)).outcome =
      .ok (.text ("hello")) :=
  ⟨(C9_content_negotiation 500 sTok ("/x") optsEmpty netFail rr200json
      (some ("tok")) sTok 0 rfl rfl).1 (.num 3) rfl rfl,
   (C9_content_negotiation 500 sTok ("/x") optsEmpty netFail rr200text
      (some ("tok")) sTok 0 rfl rfl).2 rfl⟩

/-- C8: given a successful token acquisition, the dispatched resource
request's header object is the JS spread of the default `Authorization` and
`Content-Type` headers with the caller-supplied headers: a lookup yields the
caller's value on key collision and the default value whenever the caller
does not supply a colliding key — the defaults are never silently dropped. -/
theorem C8_header_merge (now : Int) (s : SonatelAPI) (endpoint : String)
    (opts : RequestOptions) (tokenNet : TokenFetch) (resNet : ResourceFetch)
    (tok : Option String) (s₁ : SonatelAPI) (c : Nat)
    (htok : SonatelAPI.getToken now s tokenNet = (.ok tok, s₁, c))
    (hnodup : ((opts.headers.getD []).map Prod.fst).Nodup) :
    ∃ req, (SonatelAPI.request now s endpoint opts tokenNet resNet).sent = some req ∧
      ∀ k, objGet req.headers k =
        match objGet (opts.headers.getD []) k with
        | some v => some v
        | none => objGet [("Authorization", "Bearer " ++ tokenDisplay tok),
                          ("Content-Type", "application/json")] k := by
  have key : ∀ k, objGet (objSpread
      [("Authorization", "Bearer " ++ tokenDisplay tok),
       ("Content-Type", "application/json")] (opts.headers.getD [])) k =
      match objGet (opts.headers.getD []) k with
      | some v => some v
      | none => objGet [("Authorization", "Bearer " ++ tokenDisplay tok),
                        ("Content-Type", "application/json")] k :=
    fun k => objGet_objSpread _ _ k hnodup
  unfold SonatelAPI.request
  rw [htok]
  simp only
  cases resNet with
  | netError m => exact ⟨_, rfl, key⟩
  | response r =>
    dsimp only
    by_cases hct : jsonContentType r.contentType = true
    · rw [if_pos hct]
      cases r.bodyJson with
      | error m => exact ⟨_, rfl, key⟩
      | ok j =>
        dsimp only
        by_cases hok : isOk r.status = true
        · rw [if_pos hok]
          exact ⟨_, rfl, key⟩
        · rw [if_neg hok]
          exact ⟨_, rfl, key⟩
    · rw [if_neg hct]
      by_cases hok : isOk r.status = true
      · rw [if_pos hok]
        exact ⟨_, rfl, key⟩
      · rw [if_neg hok]
        exact ⟨_, rfl, key⟩

theorem C8_witness :
    ((SonatelAPI.request 500 sTok ("/x") optsHdr netFail (.response rr200text)).sent.map
        fun req => objGet req.headers ("Content-Type")) = some (some ("text/xml")) ∧
    ((SonatelAPI.request 500 sTok ("/x") optsHdr netFail (.response rr200text)).sent.map
        fun req => objGet req.headers ("Authorization")) = some (some ("Bearer tok")) := by
  obtain ⟨req, hreq, hk⟩ := C8_header_merge 500 sTok ("/x") optsHdr netFail
    (.response rr200text) (some ("tok")) sTok 0 rfl (by decide)
  constructor
  · rw [hreq, Option.map_some']
    rw [hk ("Content-Type")]
    rfl
  · rw [hreq, Option.map_some']
    rw [hk ("Authorization")]
    rfl
